import Mathlib

/-!
Shallow embedding of the rules-evaluation engine of `prototype_script.py`
(student honours-module advising checks), together with theorems settling the
spec claims about it.

Modelling conventions:
* pandas data frames become lists of records; a data-frame filter is a list
  filter; a column extraction is a `map`.
* Python strings are Lean `String`s; slicing and scanning are performed on the
  underlying `List Char` (`String.data`).
* A module-catalogue cell that may be empty (pandas `NaN`) is an `Option`.
* Prerequisite expression strings are modelled at whitespace granularity: the
  `Prerequisites` cell is stored as its whitespace-split token list, so
  `prerequisites.split()` is the stored list and the "original string" is the
  tokens re-joined with single spaces.  Module codes never span whitespace, so
  `re.findall` over the string is `findall` token by token.
* Python operations that raise (`eval` of a malformed expression, an
  unrecognised `Alternate years` cell) are modelled with `Option` where a claim
  depends on them and noted inline otherwise.
-/

/-- Python list membership / `collections.Counter` key order: deduplicate
keeping the first occurrence of each element.  Accumulator-based helper. -/
def dedupFirstAux {α : Type} [DecidableEq α] (seen : List α) : List α → List α
  | [] => []
  | x :: xs => if x ∈ seen then dedupFirstAux seen xs else x :: dedupFirstAux (x :: seen) xs

/-- Deduplicate a list keeping first occurrences (models `set(...)` /
`Counter` key enumeration with a deterministic order). -/
def dedupFirst {α : Type} [DecidableEq α] (l : List α) : List α :=
  dedupFirstAux [] l

/-- Join a list of strings with the given separator; `joinSep ", "` models the
comma-joining loops of the script and `joinSep " and "` the clash-message
loops (append the entry, then the separator unless it is the last entry). -/
def joinSep (sep : String) : List String → String
  | [] => ""
  | [x] => x
  | x :: y :: xs => x ++ sep ++ joinSep sep (y :: xs)

/-- The loop of `merge_list_to_long_string`: walk the list carrying the
accumulated string `a_string` and the `first_item_found` flag. -/
def merge_aux : List String → String → Bool → String
  | [], a_string, _ => a_string
  | item :: rest, a_string, first_item_found =>
    if item ≠ "None" then
      merge_aux rest (if first_item_found then a_string ++ ", " ++ item else item) true
    else merge_aux rest a_string first_item_found

/-- Embedding of `merge_list_to_long_string` (source lines 730-758): walk the
list skipping `'None'` entries, joining the rest with `', '`; an empty
accumulated string collapses to `'None'`. -/
def merge_list_to_long_string (a_list : List String) : String :=
  let a_string := merge_aux a_list "" false
  if a_string = "" then "None" else a_string

/-- Lexicographic comparison on code points, as Python compares strings. -/
def charListLe : List Char → List Char → Bool
  | [], _ => true
  | _ :: _, [] => false
  | a :: as, b :: bs =>
    if a.toNat < b.toNat then true
    else if b.toNat < a.toNat then false
    else charListLe as bs

/-- Python `<=` on strings. -/
def strLe (a b : String) : Bool := charListLe a.data b.data

/-- Insert into a sorted list (helper for `insertionSort`). -/
def insertStr (x : String) : List String → List String
  | [] => [x]
  | y :: ys => if strLe x y then x :: y :: ys else y :: insertStr x ys

/-- Ascending sort of strings, modelling Python `list.sort()`. -/
def insertionSort : List String → List String
  | [] => []
  | x :: xs => insertStr x (insertionSort xs)

/-- Is `n` a prefix of `h`?  (character-list level, models `str.startswith`). -/
def isPrefixCL : List Char → List Char → Bool
  | [], _ => true
  | _ :: _, [] => false
  | a :: as, b :: bs => a = b && isPrefixCL as bs

/-- Python `s.startswith(p)`. -/
def strStartsWith (s p : String) : Bool := isPrefixCL p.data s.data

/-- Is `n` an infix of `h`?  (models Python `sub in s`). -/
def containsCL (h n : List Char) : Bool :=
  isPrefixCL n h ||
    match h with
    | [] => false
    | _ :: t => containsCL t n

/-- Python `sub in s` substring containment. -/
def strContains (s sub : String) : Bool := containsCL s.data sub.data

/-- The filtered entries of a list (those different from `'None'`). -/
def nonNoneEntries (l : List String) : List String := l.filter (fun s => s ≠ "None")

/-- A row of the `honours_module_choices` data frame. -/
structure ChoiceRow where
  honoursYear : String
  academicYear : String
  semester : String
  moduleCode : String
deriving DecidableEq

/-- A row of the module catalogue.  Cells that may be empty (pandas `NaN`)
are `Option`; the `Prerequisites` cell is stored whitespace-tokenised (see the
module docstring), the `Antirequisites` cell likewise. -/
structure ModuleRecord where
  code : String
  semester : String
  year : String
  alternateYears : String
  prerequisites : Option (List String)
  antirequisites : Option (List String)
  timetable : Option String
deriving DecidableEq

/-- The `Student` profile with the derived module-list attributes (the
aliasing of `all_honours_modules` with `passed_honours_modules` is modelled
separately for the frame-effect claim; here only the resulting values
matter). -/
structure Student where
  student_id : Nat
  full_name : String
  email : String
  programme_name : String
  year_of_study : Nat
  expected_honours_years : Nat
  current_honours_year : Nat
  passed_modules : List String
  passed_honours_modules : List String
  honours_module_choices : List ChoiceRow
  full_module_list : List String
  all_honours_modules : List String
  planned_honours_modules : List String
deriving DecidableEq

/-- Build a `Student` the way `Student.__init__` does (source lines 960-980):
`full_module_list` is the passed modules followed by the chosen codes,
`all_honours_modules` the passed honours modules followed by the chosen codes,
`planned_honours_modules` the chosen codes. -/
def mkStudent (student_id : Nat) (full_name email programme_name : String)
    (year_of_study expected_honours_years current_honours_year : Nat)
    (passed_modules passed_honours_modules : List String)
    (honours_module_choices : List ChoiceRow) : Student :=
  let codes := honours_module_choices.map (fun (r : ChoiceRow) => r.moduleCode)
  { student_id := student_id
    full_name := full_name
    email := email
    programme_name := programme_name
    year_of_study := year_of_study
    expected_honours_years := expected_honours_years
    current_honours_year := current_honours_year
    passed_modules := passed_modules
    passed_honours_modules := passed_honours_modules
    honours_module_choices := honours_module_choices
    full_module_list := passed_modules ++ codes
    all_honours_modules := passed_honours_modules ++ codes
    planned_honours_modules := codes }

/-- Embedding of the first loop of `check_for_120_credits_each_year` (source
lines 696-703): for each honours year occurring in the choices, Year 1 and
Year 2 require exactly 8 rows and Year 3 exactly 7, otherwise a missed
requirement is recorded. -/
def credit_count_findings (choices : List ChoiceRow) : List String :=
  let honours_years := dedupFirst (choices.map (fun (r : ChoiceRow) => r.honoursYear))
  honours_years.flatMap (fun hy =>
    let this_data_base := choices.filter (fun (r : ChoiceRow) => r.honoursYear = hy)
    (if (hy = "Year 1" ∨ hy = "Year 2") ∧ this_data_base.length ≠ 8 then
      ["Not collecting 120 credits in " ++ hy] else [])
    ++ (if hy = "Year 3" ∧ this_data_base.length ≠ 7 then
      ["Not collecting 120 credits in " ++ hy] else []))

/-- Embedding of the second loop of `check_for_120_credits_each_year` (source
lines 705-723), including its two slips: `this_data_base` is *not* recomputed
in this loop (Python keeps the binding of the final iteration of the first
loop, so every year is checked against the rows of the last honours year in
the table), and the `semester_2_modules` bindings on lines 715 and 721 filter
on `'S1'` again. -/
def credit_split_advisories (choices : List ChoiceRow) (expected_honours_years : Nat) : List String :=
  let honours_years := dedupFirst (choices.map (fun (r : ChoiceRow) => r.honoursYear))
  let this_data_base := match honours_years.getLast? with
    | some hy => choices.filter (fun (r : ChoiceRow) => r.honoursYear = hy)
    | none => []
  honours_years.flatMap (fun hy =>
    if hy = "Year 1" ∨ (hy = "Year 2" ∧ expected_honours_years = 3) then
      ["S1", "S2"].flatMap (fun semester =>
        if (this_data_base.filter (fun (r : ChoiceRow) => r.semester = semester)).length ≠ 4 then
          ["Not taking even credit split in " ++ hy] else [])
    else if hy = "Year 2" then
      let this_reduced_data_base := this_data_base.filter (fun (r : ChoiceRow) => r.moduleCode ≠ "MT4599")
      let semester_1_modules := (this_reduced_data_base.filter (fun (r : ChoiceRow) => r.semester = "S1")).map (fun (r : ChoiceRow) => r.moduleCode)
      let semester_2_modules := (this_reduced_data_base.filter (fun (r : ChoiceRow) => r.semester = "S1")).map (fun (r : ChoiceRow) => r.moduleCode)
      if semester_1_modules.length ≠ 4 ∨ semester_2_modules.length ≠ 3 then
        ["Student is taking a high course load in second semester of final honours year"] else []
    else if hy = "Year 3" then
      let this_reduced_data_base := this_data_base.filter (fun (r : ChoiceRow) => r.moduleCode ≠ "MT5599")
      let semester_1_modules := (this_reduced_data_base.filter (fun (r : ChoiceRow) => r.semester = "S1")).map (fun (r : ChoiceRow) => r.moduleCode)
      let semester_2_modules := (this_reduced_data_base.filter (fun (r : ChoiceRow) => r.semester = "S1")).map (fun (r : ChoiceRow) => r.moduleCode)
      if semester_1_modules.length ≠ 3 ∨ semester_2_modules.length ≠ 3 then
        ["Student is taking uneven course load in final honours year"] else []
    else [])

/-- Does a character list have exactly the shape of a module code
(`[A-Z]{2}\d{4}` matching the whole token)? -/
def codeShape : List Char → Bool
  | [c1, c2, c3, c4, c5, c6] =>
    c1.isUpper && c2.isUpper && c3.isDigit && c4.isDigit && c5.isDigit && c6.isDigit
  | _ => false

/-- Is the string a bare module code? -/
def isModuleCode (s : String) : Bool := codeShape s.data

/-- Fuel-driven scanner behind `findCodesCL` (fuel bounds the number of
characters still to be inspected; structural recursion keeps the function
kernel-reducible). -/
def findCodesAux : Nat → List Char → List String
  | 0, _ => []
  | _ + 1, [] => []
  | n + 1, c1 :: rest =>
    match rest with
    | c2 :: c3 :: c4 :: c5 :: c6 :: rest' =>
      if c1.isUpper && c2.isUpper && c3.isDigit && c4.isDigit && c5.isDigit && c6.isDigit then
        String.mk [c1, c2, c3, c4, c5, c6] :: findCodesAux n rest'
      else findCodesAux n rest
    | _ => []

/-- All matches of the module-code pattern in a character list, scanning left
to right without overlap (models `re.findall(r'[A-Z]{2}\d{4}', ...)`). -/
def findCodesCL (l : List Char) : List String := findCodesAux l.length l

/-- Model of `re.findall` of the module-code pattern over a
whitespace-tokenised string: codes never span whitespace, so scan token by token. -/
def findall_module_codes (tokens : List String) : List String :=
  tokens.flatMap (fun t => findCodesCL t.data)

/-- Replace every token equal to `c` by `v` (the token-level reading of
`str.replace(module_code, 'True'/'False')` on a whitespace-tokenised
expression). -/
def replaceToken (l : List String) (c v : String) : List String :=
  l.map (fun t => if t = c then v else t)

/-- One iteration of the substitution loop of
`get_missing_prerequisites_for_module` (source lines 473-499) for one found
module code: if the code occurs as a token, look up its *first* occurrence;
when that occurrence is preceded by the token `co-requisite` substitute by
membership in previously-taken ∪ simultaneously-taken and strip every
`co-requisite` token (the `replace('co-requisite ', '')` on the whole
string); otherwise substitute by membership in previously-taken.  The final
`if` (source lines 491-494) runs unconditionally after the indexed cases, as
in the source. -/
def substitute_one_code (prerequisite_list previously_taken simultaneously_taken : List String)
    (parsed_prerequisites : List String) (module_code : String) : List String :=
  if module_code ∈ prerequisite_list then
    let location_index := prerequisite_list.findIdx (fun t => t == module_code)
    let parsed1 :=
      if 0 < location_index then
        if prerequisite_list[location_index - 1]? = some "co-requisite" then
          (if module_code ∈ previously_taken ∨ module_code ∈ simultaneously_taken then
            replaceToken parsed_prerequisites module_code "True"
          else replaceToken parsed_prerequisites module_code "False").filter
            (fun t => t ≠ "co-requisite")
        else
          if module_code ∈ previously_taken then
            replaceToken parsed_prerequisites module_code "True"
          else replaceToken parsed_prerequisites module_code "False"
      else parsed_prerequisites
    if module_code ∈ previously_taken then replaceToken parsed1 module_code "True"
    else replaceToken parsed1 module_code "False"
  else
    if module_code ∈ previously_taken then replaceToken parsed_prerequisites module_code "True"
    else replaceToken parsed_prerequisites module_code "False"

/-- The whole substitution loop (source lines 471-499): fold
`substitute_one_code` over every found code, starting from the original
expression. -/
def substitute_module_codes (prerequisite_list previously_taken simultaneously_taken : List String) :
    List String :=
  (findall_module_codes prerequisite_list).foldl
    (substitute_one_code prerequisite_list previously_taken simultaneously_taken)
    prerequisite_list

/-- Is the *first* token occurrence of code `c` immediately preceded by the
token `co-requisite`?  (What the source's `prerequisite_list.index` test
actually decides.) -/
def coreqQualifiedB (tokens : List String) (c : String) : Bool :=
  decide (0 < tokens.findIdx (fun t => t == c)) &&
    (tokens[tokens.findIdx (fun t => t == c) - 1]? == some "co-requisite")

/-- The truth value substituted for code `c`: previously ∪ simultaneously
when its first occurrence is co-requisite-qualified, previously only
otherwise. -/
def codeValue (tokens previously simultaneously : List String) (c : String) : String :=
  if coreqQualifiedB tokens c then
    (if c ∈ previously ∨ c ∈ simultaneously then "True" else "False")
  else (if c ∈ previously then "True" else "False")

/-- Strip all `co-requisite` tokens when the flag is set. -/
def condFilterCoreq (b : Bool) (l : List String) : List String :=
  if b then l.filter (fun t => t ≠ "co-requisite") else l

/-- Substitute a single token given the set `seen` of already-processed
codes. -/
def substTok (tokens previously simultaneously seen : List String) (t : String) : String :=
  if isModuleCode t ∧ t ∈ seen then codeValue tokens previously simultaneously t else t

/-- Specification-side description of the substitution state after
processing the codes in `seen`: every occurrence of a processed code carries
the value determined by that code's *first* occurrence, and all
`co-requisite` tokens are stripped as soon as some processed code is
co-requisite-qualified. -/
def substitutionState (tokens previously simultaneously seen : List String) : List String :=
  condFilterCoreq (seen.any (fun c => coreqQualifiedB tokens c))
    (tokens.map (substTok tokens previously simultaneously seen))

/-- A boolean literal token. -/
def parseBoolLit : String → Option Bool
  | "True" => some true
  | "False" => some false
  | _ => none

/-- Evaluate a chain `lit (and lit)*`. -/
def evalAndChain : List String → Option Bool
  | [t] => parseBoolLit t
  | t :: "and" :: rest => do
    let b ← parseBoolLit t
    let r ← evalAndChain rest
    pure (b && r)
  | _ => none

/-- Split a token list on a separator token. -/
def splitOnTok (sep : String) : List String → List (List String)
  | [] => [[]]
  | t :: rest =>
    let groups := splitOnTok sep rest
    if t = sep then [] :: groups
    else
      match groups with
      | g :: gs => (t :: g) :: gs
      | [] => [[t]]

/-- Evaluate the substituted boolean expression, `and` binding tighter than
`or` (models Python `eval` on the paren-free `True`/`False` expressions the
substitution produces; a malformed expression — where Python would raise —
yields `none`; no claim relies on the parenthesised forms). -/
def evalBoolTokens (tokens : List String) : Option Bool := do
  let vals ← (splitOnTok "or" tokens).mapM evalAndChain
  pure (vals.any id)

/-- Placeholder row for pandas `.values[0]` / `.iloc[0]` lookups, which the
script only performs for modules present in the choices table (on an empty
selection pandas would raise). -/
def defaultChoiceRow : ChoiceRow := ⟨"", "", "", ""⟩

/-- Model of `int(label[-1])` on a year label such as `'Year 2'` (Python raises on a
non-digit final character; year labels always end in a digit). -/
def lastCharDigit (s : String) : Nat :=
  match s.data.getLast? with
  | some ch => if ch.isDigit then ch.toNat - 48 else 0
  | none => 0

/-- The first catalogue row carrying the given module code, if any
(models `module_catalogue[module_catalogue['Module code'] == module]`). -/
def catalogue_row (catalogue : List ModuleRecord) (module : String) : Option ModuleRecord :=
  match catalogue.filter (fun (r : ModuleRecord) => r.code = module) with
  | [] => none
  | r :: _ => some r

/-- Embedding of `get_missing_prerequisites_for_module` (source lines
391-535): build the previously/simultaneously-taken lists from the choices
table, dispatch on the prerequisite cell (single code / three-token cell,
which only ever reports a letter-of-agreement advisory / the MSc-admission
literal / the general boolean expression), apply the hard-coded MT5867 rule,
then check antirequisites. -/
def get_missing_prerequisites_for_module (catalogue : List ModuleRecord) (module : String)
    (student : Student) : String × String :=
  let row := (student.honours_module_choices.filter
    (fun (r : ChoiceRow) => r.moduleCode = module)).headD defaultChoiceRow
  let year_of_this_module := row.honoursYear
  let year_number_of_this_module := lastCharDigit year_of_this_module
  let semester_of_this_module := row.semester
  let previously_taken_modules := student.passed_modules ++
    student.honours_module_choices.flatMap (fun (r : ChoiceRow) =>
      (if lastCharDigit r.honoursYear < year_number_of_this_module then [r.moduleCode] else []) ++
      (if semester_of_this_module = "S2" ∧ r.honoursYear = year_of_this_module ∧ r.semester = "S1"
        then [r.moduleCode] else []))
  let simultaneously_taken_modules := student.honours_module_choices.flatMap
    (fun (r : ChoiceRow) =>
      if r.honoursYear = year_of_this_module ∧ r.semester = semester_of_this_module ∧
          r.moduleCode ≠ module then [r.moduleCode] else [])
  let prerequisites : Option (List String) :=
    match catalogue_row catalogue module with
    | some r => r.prerequisites
    | none => none
  let prereqPair : List String × List String :=
    match prerequisites with
    | some prerequisite_list =>
      if module ≠ "MT5867" then
        if prerequisite_list.length = 1 then
          (let required_module := prerequisite_list.headD ""
           if required_module ∉ previously_taken_modules then
             ["Student is missing prerequisite " ++ required_module ++ " for module " ++ module]
           else [], [])
        else if prerequisite_list.length = 3 then
          ([], if joinSep " " prerequisite_list = "Letter of agreement" then
            ["Module " ++ module ++ " requires a letter of agreement"] else [])
        else if joinSep " " prerequisite_list
            = "Students must have gained admission onto an MSc programme" then
          (["Student cannot take module " ++ module ++
            " as this module is only available to Msc students"], [])
        else
          let parsed_prerequisites := substitute_module_codes prerequisite_list
            previously_taken_modules simultaneously_taken_modules
          let prerequisites_are_met := (evalBoolTokens parsed_prerequisites).getD false
          (if ¬ prerequisites_are_met then
            ["Student is missing prerequisite [" ++ joinSep " " prerequisite_list ++
              "] for module " ++ module ++ " ([" ++ joinSep " " parsed_prerequisites ++ "])"]
          else [], [])
      else ([], [])
    | none => ([], [])
  let missed_mt5867 :=
    if module = "MT5867" then
      (let list_of_modules := ["MT3505", "MT4003", "MT4004", "MT4512", "MT4514", "MT4515", "MT4526"]
       if ((dedupFirst list_of_modules).filter
            (fun m => m ∈ previously_taken_modules)).length < 2 then
         ["Student is missing prerequisite [two of (MT3505, MT4003, MT4004, MT4512, MT4514, MT4515, MT4526)] for module MT5867"]
       else [])
    else []
  let antirequisites : Option (List String) :=
    match catalogue_row catalogue module with
    | some r => r.antirequisites
    | none => none
  let missed_anti :=
    match antirequisites with
    | some anti_tokens =>
      (findall_module_codes anti_tokens).flatMap (fun module_code =>
        if module_code ∈ previously_taken_modules ∨ module_code ∈ simultaneously_taken_modules then
          ["Student selected antirequisite " ++ module_code ++ " for module " ++ module]
        else [])
    | none => []
  (merge_list_to_long_string (prereqPair.1 ++ missed_mt5867 ++ missed_anti),
   merge_list_to_long_string prereqPair.2)

/-- Embedding of `find_missing_prerequisites` (source lines 358-389): check
every planned module and merge the per-module strings. -/
def find_missing_prerequisites (catalogue : List ModuleRecord) (student : Student) :
    String × String :=
  let results := student.planned_honours_modules.map
    (fun m => get_missing_prerequisites_for_module catalogue m student)
  (merge_list_to_long_string (results.map (fun r => r.1)),
   merge_list_to_long_string (results.map (fun r => r.2)))

/-- Python dict lookup `module_dictionary[module]` on an association list
(first binding wins; the script only looks up keys it inserted). -/
def lookupSlots (d : List (String × List String)) (m : String) : List String :=
  match d.find? (fun r => r.1 == m) with
  | some r => r.2
  | none => []

/-- Intersection `set.intersection(*sets)` of a non-empty family, keeping the
first set's element order (Python set order is unspecified). -/
def intersectAll : List (List String) → List String
  | [] => []
  | s :: rest => rest.foldl (fun acc t => acc.filter (fun x => x ∈ t)) s

/-- Embedding of `find_clashing_timeslots_and_modules` (source lines
169-228): count timeslot occurrences over the whole group (`Counter`), keep
the slots occurring in more than one module, collect and sort the modules
sharing each such slot, deduplicate the resulting combinations
(`set(frozenset(...))`, modelled as order-preserving dedup of sorted
lists), and build one message per combination naming the modules and the
intersection of their timeslot sets. -/
def find_clashing_timeslots_and_modules (module_dictionary : List (String × List String))
    (honours_year semester : String) : List String :=
  let all_timeslots := module_dictionary.flatMap (fun r => r.2)
  let duplicate_entries := (dedupFirst all_timeslots).filter
    (fun t => 1 < all_timeslots.count t)
  let clashing_module_codes := duplicate_entries.map (fun t =>
    insertionSort ((module_dictionary.filter (fun r => t ∈ r.2)).map (fun r => r.1)))
  let unique_module_clashes := dedupFirst (clashing_module_codes.map (fun l => dedupFirst l))
  unique_module_clashes.map (fun module_combination =>
    let all_timeslot_sets := module_combination.map
      (fun m => dedupFirst (lookupSlots module_dictionary m))
    let affected_timeslots := intersectAll all_timeslot_sets
    "Clash for " ++ honours_year ++ " " ++ semester ++ " between modules "
      ++ joinSep " and " module_combination ++ " at " ++ joinSep " and " affected_timeslots)

/-- The per-(honours year, semester) body of `find_timetable_clashes`
(source lines 148-159): the detector runs three times on the *same*
dictionary — the two qualifier-stripping passes call `entry.replace(' (even
weeks)', '')` / `entry.replace(' (odd weeks)', '')` but discard the returned
strings, and then pass `timeslot_dictionary` (not the copy) to the detector
anyway, so both extra passes are identical to the first. -/
def clash_detection_passes (timeslot_dictionary : List (String × List String))
    (honours_year semester : String) : List String :=
  find_clashing_timeslots_and_modules timeslot_dictionary honours_year semester
    ++ find_clashing_timeslots_and_modules timeslot_dictionary honours_year semester
    ++ find_clashing_timeslots_and_modules timeslot_dictionary honours_year semester

/-- Accumulator for `splitWS`: current reversed word plus completed words. -/
def splitWSAux : List Char → List Char → List String
  | [], acc => if acc.isEmpty then [] else [String.mk acc.reverse]
  | ch :: cs, acc =>
    if ch = ' ' then
      if acc.isEmpty then splitWSAux cs []
      else String.mk acc.reverse :: splitWSAux cs []
    else splitWSAux cs (ch :: acc)

/-- Python `str.split()`: split on whitespace runs, dropping empty pieces. -/
def splitWS (s : String) : List String := splitWSAux s.data []

/-- Python `s.endswith(',')`. -/
def endsWithComma (s : String) : Bool := s.data.getLast? == some ','

/-- Python `s[:-1]`. -/
def dropLastChar (s : String) : String := String.mk s.data.dropLast

/-- Strip a trailing comma when present (the recurring
`if ... .endswith(','): ... = ...[:-1]` idiom). -/
def stripComma (s : String) : String := if endsWithComma s then dropLastChar s else s

/-- The trailing pair-consuming loop of `get_timeslots_for_module` (source
lines 281-287); Python would raise on an odd leftover token, which
well-formed timetable cells never produce. -/
def parseSlotPairs : List String → List String
  | a :: b :: rest => stripComma (a ++ " " ++ b) :: parseSlotPairs rest
  | _ => []

/-- Embedding of `get_timeslots_for_module` (source lines 230-289): missing
module or empty cell gives no slots; the literal MT4112 cell is hard-coded;
otherwise split the cell on whitespace and read either the multi-qualifier
form (third token opens a parenthesis) or day+time pairs.  Out-of-range
indexing (where Python would raise on malformed cells) is modelled with
`getD ""`. -/
def get_timeslots_for_module (catalogue : List ModuleRecord) (module : String) : List String :=
  let timeslot_entry : Option String :=
    match catalogue_row catalogue module with
    | some r => r.timetable
    | none => none
  match timeslot_entry with
  | none => []
  | some timeslot_entry =>
    if timeslot_entry = "10am Wed (odd weeks), 10am Fri (odd weeks)" then
      ["10am Wed (odd weeks)", "10am Fri (odd weeks)"]
    else
      let timeslot_splits := splitWS timeslot_entry
      let first0 := timeslot_splits.headD ""
      if 2 < timeslot_splits.length ∧ strStartsWith (timeslot_splits.getD 2 "") "(" then
        let second_timeslot := first0 ++ " " ++ dropLastChar (timeslot_splits.getD 4 "")
        let third_timeslot := stripComma (first0 ++ " " ++ timeslot_splits.getD 5 "")
        let first_timeslot := first0 ++ " " ++ timeslot_splits.getD 1 "" ++ " "
          ++ timeslot_splits.getD 2 "" ++ " " ++ dropLastChar (timeslot_splits.getD 3 "")
        let remaining_splits := if 7 < timeslot_splits.length then timeslot_splits.drop 6 else []
        [first_timeslot, second_timeslot, third_timeslot] ++ parseSlotPairs remaining_splits
      else
        let first_timeslot := stripComma (first0 ++ " " ++ timeslot_splits.getD 1 "")
        let remaining_splits := if 2 < timeslot_splits.length then timeslot_splits.drop 2 else []
        first_timeslot :: parseSlotPairs remaining_splits

/-- Embedding of `find_timetable_clashes` (source lines 114-167): group the
choices by (honours year, semester), build each group timeslot dictionary
from the catalogue, run the three detection passes, deduplicate the
accumulated warnings (`list(set(...))`, modelled order-preserving) and merge
them; the adviser-recommendation list is never written to. -/
def find_timetable_clashes (catalogue : List ModuleRecord) (student : Student) :
    String × String :=
  let remaining_honours_years := dedupFirst
    (student.honours_module_choices.map (fun (r : ChoiceRow) => r.honoursYear))
  let timetable_clashes_list := remaining_honours_years.flatMap (fun honours_year =>
    ["S1", "S2"].flatMap (fun semester =>
      let semester_modules := (student.honours_module_choices.filter
        (fun (r : ChoiceRow) => r.semester = semester ∧ r.honoursYear = honours_year)).map
        (fun (r : ChoiceRow) => r.moduleCode)
      let timeslot_dictionary := semester_modules.map
        (fun m => (m, get_timeslots_for_module catalogue m))
      clash_detection_passes timeslot_dictionary honours_year semester))
  (merge_list_to_long_string (dedupFirst timetable_clashes_list),
   merge_list_to_long_string [])

/-- A one-module catalogue whose module MT2001 carries the compound boolean
prerequisite expression `MT1001 and MT1002`. -/
def c3_catalogue : List ModuleRecord :=
  [⟨"MT2001", "S1", "2023/2024", "No", some ["MT1001", "and", "MT1002"], none, none⟩]

/-- A student who plans MT2001 and has passed nothing, in particular neither
MT1001 nor MT1002. -/
def c3_student : Student :=
  mkStudent 3 "Test Student" "ts@example.com" "Bachelor of Science (Honours) Mathematics"
    3 2 1 [] [] [⟨"Year 1", "2023/2024", "S1", "MT2001"⟩]

/-- Choices of a student on the 2-honours-year BSc programme whose module
split matches the expected shape exactly: Year 1 has 4 modules in each
semester, Year 2 has 4 in S1 and 3 in S2 plus the final-year project MT4599
in S2. -/
def c8_choices : List ChoiceRow :=
  [⟨"Year 1", "2023/2024", "S1", "MT3501"⟩,
   ⟨"Year 1", "2023/2024", "S1", "MT3502"⟩,
   ⟨"Year 1", "2023/2024", "S1", "MT3503"⟩,
   ⟨"Year 1", "2023/2024", "S1", "MT3504"⟩,
   ⟨"Year 1", "2023/2024", "S2", "MT3505"⟩,
   ⟨"Year 1", "2023/2024", "S2", "MT3506"⟩,
   ⟨"Year 1", "2023/2024", "S2", "MT3507"⟩,
   ⟨"Year 1", "2023/2024", "S2", "MT3508"⟩,
   ⟨"Year 2", "2024/2025", "S1", "MT4001"⟩,
   ⟨"Year 2", "2024/2025", "S1", "MT4002"⟩,
   ⟨"Year 2", "2024/2025", "S1", "MT4003"⟩,
   ⟨"Year 2", "2024/2025", "S1", "MT4004"⟩,
   ⟨"Year 2", "2024/2025", "S2", "MT4005"⟩,
   ⟨"Year 2", "2024/2025", "S2", "MT4006"⟩,
   ⟨"Year 2", "2024/2025", "S2", "MT4007"⟩,
   ⟨"Year 2", "2024/2025", "S2", "MT4599"⟩]

/-- The student holding `c8_choices` (Bachelor of Science student, two
expected honours years). -/
def c8_student : Student :=
  mkStudent 1 "Test Student" "ts@example.com" "Bachelor of Science (Honours) Mathematics"
    3 2 1 [] [] c8_choices

/-- Choices with only 7 Year 1 rows, used to witness the credit-load rule. -/
def c7_choices : List ChoiceRow :=
  [⟨"Year 1", "2023/2024", "S1", "MT3501"⟩,
   ⟨"Year 1", "2023/2024", "S1", "MT3502"⟩,
   ⟨"Year 1", "2023/2024", "S1", "MT3503"⟩,
   ⟨"Year 1", "2023/2024", "S1", "MT3504"⟩,
   ⟨"Year 1", "2023/2024", "S2", "MT3505"⟩,
   ⟨"Year 1", "2023/2024", "S2", "MT3506"⟩,
   ⟨"Year 1", "2023/2024", "S2", "MT3507"⟩]

/-- The student holding `c7_choices`. -/
def c7_student : Student :=
  mkStudent 2 "Test Student" "ts@example.com" "Bachelor of Science (Honours) Mathematics"
    3 2 1 [] [] c7_choices

/-- The two finding lists accumulated by `check_for_120_credits_each_year`
before merging. -/
def check_for_120_credits_lists (student : Student) : List String × List String :=
  (credit_count_findings student.honours_module_choices,
   credit_split_advisories student.honours_module_choices student.expected_honours_years)

/-- Embedding of `check_for_120_credits_each_year` (source lines 673-728):
merge the two lists into the returned strings. -/
def check_for_120_credits_each_year (student : Student) : String × String :=
  (merge_list_to_long_string (check_for_120_credits_lists student).1,
   merge_list_to_long_string (check_for_120_credits_lists student).2)

/-- Embedding of `Student.get_number_of_modules_in_list`, i.e.
`len(set(full_module_list).intersection(set(module_list)))` (source lines 982-1000). -/
def get_number_of_modules_in_list (student : Student) (module_list : List String) : Nat :=
  ((dedupFirst student.full_module_list).filter (fun m => m ∈ module_list)).length

/-- Embedding of `find_missing_programme_requirements` (source lines
561-671): duplicate-selection check, unknown-module check, then the
hard-coded rule set for `Bachelor of Science (Honours) Mathematics` (every
other programme yields the single stub finding).  The duplicate-warning loop
joins the distinct duplicated codes with `', '`. -/
def find_missing_programme_requirements (catalogue : List ModuleRecord) (student : Student) :
    String × String :=
  let duplicate_findings :=
    if (dedupFirst student.full_module_list).length ≠ student.full_module_list.length then
      (let duplicate_entries := (dedupFirst student.full_module_list).filter
        (fun m => 1 < student.full_module_list.count m)
       ["Student selected the following modules twice: " ++ joinSep ", " duplicate_entries])
    else []
  let unknown_findings := student.planned_honours_modules.flatMap (fun m =>
    if strStartsWith m "MT" ∧ m ∉ catalogue.map (fun (r : ModuleRecord) => r.code) then
      ["Student is planning to take " ++ m ++ " (which does not exist)"] else [])
  let programmePair : List String × List String :=
    if student.programme_name = "Bachelor of Science (Honours) Mathematics" then
      let credit_pair := check_for_120_credits_each_year student
      let list_of_MT350X_modules :=
        ["MT3501", "MT3502", "MT3503", "MT3504", "MT3505", "MT3506", "MT3507", "MT3508"]
      let number_of_MT350X_modules := get_number_of_modules_in_list student list_of_MT350X_modules
      let f2 := if number_of_MT350X_modules < 4 then
        ["Student is only taking " ++ toString number_of_MT350X_modules
          ++ "out of MT3501-MT3508"] else []
      let list_of_computing_modules := ["MT3510", "MT4111", "MT4112", "MT4113"]
      let f3 := if get_number_of_modules_in_list student list_of_computing_modules = 0 then
        ["Student is not taking a computing module"] else []
      let list_of_project_codes := ["MT4598", "MT4599"]
      let number_final_year_projects := get_number_of_modules_in_list student list_of_project_codes
      let f4 :=
        if number_final_year_projects ≠ 1 then
          ["Student is not taking an allowed final year project"]
        else
          (let this_year :=
            if "MT4598" ∈ student.full_module_list then
              ((student.honours_module_choices.filter
                (fun (r : ChoiceRow) => r.moduleCode = "MT4598")).headD defaultChoiceRow).honoursYear
            else
              ((student.honours_module_choices.filter
                (fun (r : ChoiceRow) => r.moduleCode = "MT4599")).headD defaultChoiceRow).honoursYear
           if this_year ≠ "Year 2" then
             ["Student is not taking their final year project in their final year."] else [])
      let unallowed_modules := ["MT4794", "MT4795", "MT4796", "MT4797"]
      let f5 := if 0 < get_number_of_modules_in_list student unallowed_modules then
        ["Student is taking a module in MT4794-MT4797"] else []
      let list_of_all_non_maths_modules := student.all_honours_modules.filter (fun m =>
        ¬ strContains m "MT2" ∧ ¬ strContains m "MT3" ∧ ¬ strContains m "MT4"
          ∧ ¬ strContains m "MT5")
      let f6 := if 2 < list_of_all_non_maths_modules.length then
        ["Student is taking more than 2 modules as dip-down or dip-across, which is not allowed."]
        else []
      let list_of_4000_and_5000_modules := student.all_honours_modules.filter (fun m =>
        strContains m "MT4" ∨ strContains m "MT5")
      let f7 := if list_of_4000_and_5000_modules.length < 6 then
        ["Student is not planning to take enough credits at 4000 level or above"] else []
      let a2 := if 0 < (student.planned_honours_modules.filter
          (fun m => strContains m "MT5")).length then
        ["Student is planning to take 5000 level modules (which will require permission)"] else []
      let a3 := if 0 < (student.planned_honours_modules.filter
          (fun m => strContains m "MT2")).length then
        ["Student is planning to take 2000 level modules, (which will require permission)"] else []
      let a4 := if 0 < (student.planned_honours_modules.filter (fun m =>
          ¬ strContains m "MT2" ∧ ¬ strContains m "MT3" ∧ ¬ strContains m "MT4"
            ∧ ¬ strContains m "MT5")).length then
        ["Student is planning to take non-MT modules, which requires permission"] else []
      ([credit_pair.1] ++ f2 ++ f3 ++ f4 ++ f5 ++ f6 ++ f7, [credit_pair.2] ++ a2 ++ a3 ++ a4)
    else (["No programme requirements available"], [])
  (merge_list_to_long_string (duplicate_findings ++ unknown_findings ++ programmePair.1),
   merge_list_to_long_string programmePair.2)

/-- Model of `int()` on an all-digit character list (Python raises on anything else;
the script only parses the leading `YYYY` of well-formed year cells). -/
def digitsVal (l : List Char) : Nat := l.foldl (fun a ch => a * 10 + (ch.toNat - 48)) 0

/-- The per-row body of `find_not_running_modules` (source lines 314-349):
a module absent from the catalogue is skipped (already flagged elsewhere);
a wrong semester yields a finding; an unparseable `Alternate years` cell
raises (`none`); otherwise the five candidate running years are generated
(stepping one or two years) and a mismatch yields a finding. -/
def not_running_row_findings (catalogue : List ModuleRecord) (row : ChoiceRow) :
    Option (List String) :=
  match catalogue_row catalogue row.moduleCode with
  | none => some []
  | some entry =>
    let semester_findings :=
      if row.semester ≠ entry.semester ∧ entry.semester ≠ "Full Year" then
        ["Selected module " ++ row.moduleCode ++ " for Semester " ++ row.semester
          ++ " but it is actually running in " ++ entry.semester] else []
    match (if entry.alternateYears = "Yes" then some true
           else if entry.alternateYears = "No" then some false else none) with
    | none => none
    | some module_is_alternating =>
      let start_year := digitsVal (entry.year.data.take 4)
      let list_of_running_academic_years := entry.year ::
        (List.range 4).map (fun repeat_index =>
          if module_is_alternating then
            toString (start_year + 2 * repeat_index) ++ "/"
              ++ toString (start_year + 2 * repeat_index + 1)
          else
            toString (start_year + repeat_index) ++ "/"
              ++ toString (start_year + repeat_index + 1))
      let year_findings :=
        if row.academicYear ∉ list_of_running_academic_years then
          ["Selected module " ++ row.moduleCode ++ " is not running in academic year "
            ++ row.academicYear] else []
      some (semester_findings ++ year_findings)

/-- Embedding of `find_not_running_modules` (source lines 291-355): collect
the per-row findings (an unparseable alternation cell aborts the whole
check, as the Python `raise` does) and merge; the adviser list is never
written to. -/
def find_not_running_modules (catalogue : List ModuleRecord) (student : Student) :
    Option (String × String) :=
  match student.honours_module_choices.foldl
    (fun acc row =>
      match acc, not_running_row_findings catalogue row with
      | some l, some f => some (l ++ f)
      | _, _ => none) (some []) with
  | none => none
  | some lst => some (merge_list_to_long_string lst, merge_list_to_long_string [])

/-- The success path of `process_form_file` (source lines 53-88): run the
four checks and merge the four advisory strings into the fifth output
column.  `none` only when `find_not_running_modules` raises. -/
def process_student (catalogue : List ModuleRecord) (student : Student) :
    Option (String × String × String × String × String) :=
  let programme_pair := find_missing_programme_requirements catalogue student
  let prerequisite_pair := find_missing_prerequisites catalogue student
  match find_not_running_modules catalogue student with
  | none => none
  | some not_running_pair =>
    let timetable_pair := find_timetable_clashes catalogue student
    let adviser_recommendations := merge_list_to_long_string
      [programme_pair.2, prerequisite_pair.2, not_running_pair.2, timetable_pair.2]
    some (programme_pair.1, prerequisite_pair.1, not_running_pair.1, timetable_pair.1,
      adviser_recommendations)

/-- A catalogue for the fully valid student of claim C1: sixteen modules,
each running in the planned semester and year, not alternating, with no
prerequisites or antirequisites and pairwise distinct single timeslots. -/
def c1_catalogue : List ModuleRecord :=
  [⟨"MT3501", "S1", "2023/2024", "No", none, none, some "9am Mon"⟩,
   ⟨"MT3502", "S1", "2023/2024", "No", none, none, some "9am Tue"⟩,
   ⟨"MT3503", "S1", "2023/2024", "No", none, none, some "9am Wed"⟩,
   ⟨"MT3504", "S1", "2023/2024", "No", none, none, some "9am Thu"⟩,
   ⟨"MT3505", "S2", "2023/2024", "No", none, none, some "10am Mon"⟩,
   ⟨"MT3506", "S2", "2023/2024", "No", none, none, some "10am Tue"⟩,
   ⟨"MT3507", "S2", "2023/2024", "No", none, none, some "10am Wed"⟩,
   ⟨"MT3508", "S2", "2023/2024", "No", none, none, some "10am Thu"⟩,
   ⟨"MT4001", "S1", "2024/2025", "No", none, none, some "11am Mon"⟩,
   ⟨"MT4002", "S1", "2024/2025", "No", none, none, some "11am Tue"⟩,
   ⟨"MT4003", "S1", "2024/2025", "No", none, none, some "11am Wed"⟩,
   ⟨"MT4004", "S1", "2024/2025", "No", none, none, some "11am Thu"⟩,
   ⟨"MT4006", "S2", "2024/2025", "No", none, none, some "noon Mon"⟩,
   ⟨"MT4007", "S2", "2024/2025", "No", none, none, some "noon Tue"⟩,
   ⟨"MT3510", "S2", "2024/2025", "No", none, none, some "noon Wed"⟩,
   ⟨"MT4599", "S2", "2024/2025", "No", none, none, some "noon Thu"⟩]

/-- A fully valid BSc Mathematics selection: Year 1 split 4+4 over
MT3501-MT3508 (breadth satisfied), Year 2 split 4+4 with the computing
module MT3510 and the final-year project MT4599 in S2 — every programme
rule, prerequisite, scheduling and timetable constraint holds. -/
def c1_choices : List ChoiceRow :=
  [⟨"Year 1", "2023/2024", "S1", "MT3501"⟩,
   ⟨"Year 1", "2023/2024", "S1", "MT3502"⟩,
   ⟨"Year 1", "2023/2024", "S1", "MT3503"⟩,
   ⟨"Year 1", "2023/2024", "S1", "MT3504"⟩,
   ⟨"Year 1", "2023/2024", "S2", "MT3505"⟩,
   ⟨"Year 1", "2023/2024", "S2", "MT3506"⟩,
   ⟨"Year 1", "2023/2024", "S2", "MT3507"⟩,
   ⟨"Year 1", "2023/2024", "S2", "MT3508"⟩,
   ⟨"Year 2", "2024/2025", "S1", "MT4001"⟩,
   ⟨"Year 2", "2024/2025", "S1", "MT4002"⟩,
   ⟨"Year 2", "2024/2025", "S1", "MT4003"⟩,
   ⟨"Year 2", "2024/2025", "S1", "MT4004"⟩,
   ⟨"Year 2", "2024/2025", "S2", "MT4006"⟩,
   ⟨"Year 2", "2024/2025", "S2", "MT4007"⟩,
   ⟨"Year 2", "2024/2025", "S2", "MT3510"⟩,
   ⟨"Year 2", "2024/2025", "S2", "MT4599"⟩]

/-- The fully valid student of claim C1. -/
def c1_student : Student :=
  mkStudent 4 "Test Student" "ts@example.com" "Bachelor of Science (Honours) Mathematics"
    3 2 1 [] [] c1_choices

/-- The three per-record unrecoverable outcomes of `parse_excel_form`
(source lines 781-866): these are the only warning strings it returns. -/
inductive ParseWarning where
  | noStudentID : ParseWarning
  | invalidStudentID : Nat → ParseWarning
  | unrecognisedProgramme : String → ParseWarning

/-- The warning string `parse_excel_form` returns in each case. -/
def warning_string : ParseWarning → String
  | .noStudentID => "No student ID"
  | .invalidStudentID id => "contains invalid student ID " ++ toString id
  | .unrecognisedProgramme p => "Do not recognise student programme for parsing: " ++ p

/-- One row of the summary data frame (source lines 90-111). -/
structure SummaryRow where
  studentId : Nat
  name : String
  programme : String
  honYear : Nat
  unmetProgrammeRequirements : String
  missingPrerequisites : String
  modulesNotRunning : String
  timetableClashes : String
  adviserRecommendations : String
deriving DecidableEq

/-- The warning branch of `process_form_file` (source lines 25-42): dispatch
on the warning string, build the message and emit the sentinel summary row
`[000000000, 'Unknown', 'Unknown', 0, message, ' ', ' ', ' ', ' ']`.  (A
string outside the three shapes would leave `warning_message` unbound in
Python; `parse_excel_form` never produces one, and the embedding's final
else is unreachable on `warning_string` values.) -/
def process_form_file_warning (filename : String) (w : ParseWarning) : SummaryRow :=
  let student_or_warning := warning_string w
  let warning_message :=
    if student_or_warning = "No student ID" then
      "Could not process " ++ filename ++ ". The file does not contain a valid student ID."
    else if strStartsWith student_or_warning "contains invalid student ID" then
      "Could not process " ++ filename ++ ". The file " ++ student_or_warning
    else if strStartsWith student_or_warning "Do not recognise student programme for parsing:" then
      "Could not process " ++ filename ++ ". " ++ student_or_warning
    else ""
  ⟨0, "Unknown", "Unknown", 0, warning_message, " ", " ", " ", " "⟩

/-- The message the claim expects in the programme-findings slot, per
warning case. -/
def expected_warning_message (filename : String) : ParseWarning → String
  | .noStudentID =>
    "Could not process " ++ filename ++ ". The file does not contain a valid student ID."
  | .invalidStudentID id =>
    "Could not process " ++ filename ++ ". The file contains invalid student ID " ++ toString id
  | .unrecognisedProgramme p =>
    "Could not process " ++ filename ++ ". Do not recognise student programme for parsing: " ++ p

/-- A heap of Python list objects: references are numbers below `next`. -/
structure PyHeap where
  store : Nat → List String
  next : Nat

/-- Model of `list.copy()`: allocate a fresh list object. -/
def heapAlloc (h : PyHeap) (v : List String) : Nat × PyHeap :=
  (h.next, ⟨fun r => if r = h.next then v else h.store r, h.next + 1⟩)

/-- Model of `lst += xs`: in-place extension of the referenced list object. -/
def heapExtend (h : PyHeap) (r : Nat) (xs : List String) : PyHeap :=
  ⟨fun r2 => if r2 = r then h.store r ++ xs else h.store r2, h.next⟩

/-- The `Student` object with its list-valued attributes as heap
references. -/
structure StudentObj where
  student_id : Nat
  full_name : String
  email : String
  programme_name : String
  year_of_study : Nat
  expected_honours_years : Nat
  current_honours_year : Nat
  passed_modules_ref : Nat
  passed_honours_modules_ref : Nat
  honours_module_choices : List ChoiceRow
  full_module_list_ref : Nat
  all_honours_modules_ref : Nat
  planned_honours_modules : List String

/-- Heap-level embedding of `Student.__init__` (source lines 914-980):
`full_module_list` is a fresh copy of the passed-modules list extended in
place with the chosen codes; `all_honours_modules` is bound to the *same*
object as `passed_honours_modules` (no copy on line 976) and the `+=` on
line 977 extends that shared object; `planned_honours_modules` is the fresh
list `tolist()` returns. -/
def Student_init (h : PyHeap) (student_id : Nat)
    (full_name email programme_name : String)
    (year_of_study expected_honours_years current_honours_year : Nat)
    (passed_modules_ref passed_honours_modules_ref : Nat)
    (honours_module_choices : List ChoiceRow) : StudentObj × PyHeap :=
  let codes := honours_module_choices.map (fun (r : ChoiceRow) => r.moduleCode)
  let alloc_result := heapAlloc h (h.store passed_modules_ref)
  let full_module_list_ref := alloc_result.1
  let h1 := alloc_result.2
  let h2 := heapExtend h1 full_module_list_ref codes
  let all_honours_modules_ref := passed_honours_modules_ref
  let h3 := heapExtend h2 all_honours_modules_ref codes
  (⟨student_id, full_name, email, programme_name, year_of_study, expected_honours_years,
    current_honours_year, passed_modules_ref, passed_honours_modules_ref,
    honours_module_choices, full_module_list_ref, all_honours_modules_ref, codes⟩, h3)

/-- A one-object heap for the frame-effect witness: reference 0 holds the
already-passed honours module list. -/
def c10_heap : PyHeap := ⟨fun r => if r = 0 then ["MT2501"] else [], 1⟩

/-- A single planned choice row for the frame-effect witness. -/
def c10_rows : List ChoiceRow := [⟨"Year 1", "2023/2024", "S1", "MT3501"⟩]

section C2Lemmas

theorem nonNoneEntries_cons (x : String) (xs : List String) :
    nonNoneEntries (x :: xs)
      = if x = "None" then nonNoneEntries xs else x :: nonNoneEntries xs := by
  by_cases hx : x = "None" <;> simp [nonNoneEntries, hx]

theorem joinSep_cons_of_ne_nil (sep x : String) {xs : List String} (h : xs ≠ []) :
    joinSep sep (x :: xs) = x ++ sep ++ joinSep sep xs := by
  cases xs with
  | nil => exact absurd rfl h
  | cons a as => simp [joinSep]

theorem merge_aux_found (l : List String) : ∀ s : String,
    merge_aux l s true
      = (if nonNoneEntries l = [] then s else s ++ ", " ++ joinSep ", " (nonNoneEntries l)) := by
  induction l with
  | nil => intro s; simp [merge_aux, nonNoneEntries]
  | cons x xs ih =>
    intro s
    by_cases hx : x = "None"
    · rw [nonNoneEntries_cons, if_pos hx]
      simp only [merge_aux, hx]
      simpa using ih s
    · rw [nonNoneEntries_cons, if_neg hx]
      simp only [merge_aux, hx]
      have hne : x :: nonNoneEntries xs ≠ [] := by simp
      rw [if_neg hne]
      simp only [ne_eq, hx, not_false_eq_true, if_true]
      rw [ih (s ++ ", " ++ x)]
      by_cases h2 : nonNoneEntries xs = []
      · simp [h2, joinSep]
      · rw [if_neg h2, joinSep_cons_of_ne_nil _ _ h2]
        simp [String.append_assoc]

theorem merge_aux_start (l : List String) :
    merge_aux l "" false = joinSep ", " (nonNoneEntries l) := by
  induction l with
  | nil => simp [merge_aux, nonNoneEntries, joinSep]
  | cons x xs ih =>
    by_cases hx : x = "None"
    · rw [nonNoneEntries_cons, if_pos hx]
      simp only [merge_aux, hx]
      simpa using ih
    · rw [nonNoneEntries_cons, if_neg hx]
      simp only [merge_aux, ne_eq, hx, not_false_eq_true, if_true, Bool.false_eq_true, if_false]
      rw [merge_aux_found xs x]
      by_cases h2 : nonNoneEntries xs = []
      · simp [h2, joinSep]
      · rw [if_neg h2, joinSep_cons_of_ne_nil _ _ h2]

end C2Lemmas

theorem mem_dedupFirstAux {α : Type} [DecidableEq α] (x : α) :
    ∀ (l seen : List α), x ∈ dedupFirstAux seen l ↔ x ∈ l ∧ x ∉ seen := by
  intro l
  induction l with
  | nil => intro seen; simp [dedupFirstAux]
  | cons a as ih =>
    intro seen
    by_cases ha : a ∈ seen
    · rw [dedupFirstAux, if_pos ha, ih]
      constructor
      · rintro ⟨h1, h2⟩
        exact ⟨List.mem_cons_of_mem _ h1, h2⟩
      · rintro ⟨h1, h2⟩
        rcases List.mem_cons.mp h1 with rfl | h1
        · exact absurd ha h2
        · exact ⟨h1, h2⟩
    · rw [dedupFirstAux, if_neg ha, List.mem_cons, ih]
      constructor
      · rintro (rfl | ⟨h1, h2⟩)
        · exact ⟨List.mem_cons_self _ _, ha⟩
        · exact ⟨List.mem_cons_of_mem _ h1, fun hx => h2 (List.mem_cons_of_mem _ hx)⟩
      · rintro ⟨h1, h2⟩
        by_cases hxa : x = a
        · exact Or.inl hxa
        · rcases List.mem_cons.mp h1 with rfl | h1
          · exact Or.inl rfl
          · exact Or.inr ⟨h1, fun hx => (List.mem_cons.mp hx).elim hxa h2⟩

theorem mem_dedupFirst {α : Type} [DecidableEq α] (x : α) (l : List α) :
    x ∈ dedupFirst l ↔ x ∈ l := by
  rw [dedupFirst, mem_dedupFirstAux]
  simp

theorem nodup_dedupFirstAux {α : Type} [DecidableEq α] :
    ∀ (l seen : List α), (dedupFirstAux seen l).Nodup := by
  intro l
  induction l with
  | nil => intro seen; simp [dedupFirstAux]
  | cons a as ih =>
    intro seen
    by_cases ha : a ∈ seen
    · rw [dedupFirstAux, if_pos ha]
      exact ih seen
    · rw [dedupFirstAux, if_neg ha]
      refine List.nodup_cons.mpr ⟨?_, ih (a :: seen)⟩
      intro hmem
      exact ((mem_dedupFirstAux a as (a :: seen)).mp hmem).2 (List.mem_cons_self _ _)

theorem nodup_dedupFirst {α : Type} [DecidableEq α] (l : List α) : (dedupFirst l).Nodup :=
  nodup_dedupFirstAux l []

theorem credit_message_inj {y y' : String}
    (h : "Not collecting 120 credits in " ++ y = "Not collecting 120 credits in " ++ y') :
    y = y' := by
  have hd := congrArg String.data h
  rw [String.data_append, String.data_append] at hd
  exact String.ext (List.append_cancel_left hd)

theorem credit_message_ne_split (y z : String) :
    "Not collecting 120 credits in " ++ y ≠ "Not taking even credit split in " ++ z := by
  intro h
  have hd := congrArg String.data h
  rw [String.data_append, String.data_append] at hd
  have h4 := congrArg (fun (l : List Char) => l[4]?) hd
  simp only at h4
  rw [List.getElem?_append_left (by decide), List.getElem?_append_left (by decide)] at h4
  exact absurd h4 (by decide)

theorem credit_message_ne_high (y : String) :
    "Not collecting 120 credits in " ++ y
      ≠ "Student is taking a high course load in second semester of final honours year" := by
  intro h
  have hd := congrArg String.data h
  rw [String.data_append] at hd
  have h0 := congrArg (fun (l : List Char) => l[0]?) hd
  simp only at h0
  rw [List.getElem?_append_left (by decide)] at h0
  exact absurd h0 (by decide)

theorem credit_message_ne_uneven (y : String) :
    "Not collecting 120 credits in " ++ y
      ≠ "Student is taking uneven course load in final honours year" := by
  intro h
  have hd := congrArg String.data h
  rw [String.data_append] at hd
  have h0 := congrArg (fun (l : List Char) => l[0]?) hd
  simp only at h0
  rw [List.getElem?_append_left (by decide)] at h0
  exact absurd h0 (by decide)


theorem codeValue_true_or_false (ts p q : List String) (c : String) :
    codeValue ts p q c = "True" ∨ codeValue ts p q c = "False" := by
  unfold codeValue
  split_ifs <;> simp

theorem codeValue_ne_of_code {ts p q : List String} {c : String} (t : String)
    (hc : isModuleCode c = true) : codeValue ts p q t ≠ c := by
  rcases codeValue_true_or_false ts p q t with h | h <;> rw [h] <;> intro he <;>
    rw [← he] at hc <;> exact absurd hc (by decide)

theorem codeValue_ne_coreq (ts p q : List String) (t : String) :
    codeValue ts p q t ≠ "co-requisite" := by
  rcases codeValue_true_or_false ts p q t with h | h <;> rw [h] <;> decide

theorem code_ne_coreq {c : String} (hc : isModuleCode c = true) : c ≠ "co-requisite" := by
  intro he
  rw [he] at hc
  exact absurd hc (by decide)

theorem replaceToken_eq_self {l : List String} {c : String} (h : ∀ t ∈ l, t ≠ c) (v : String) :
    replaceToken l c v = l := by
  unfold replaceToken
  induction l with
  | nil => rfl
  | cons a as ih =>
    rw [List.map_cons, if_neg (h a (List.mem_cons_self a as)), ih]
    intro t ht
    exact h t (List.mem_cons_of_mem _ ht)

theorem filter_replaceToken_comm (l : List String) (c v : String) (hc : c ≠ "co-requisite")
    (hv : v ≠ "co-requisite") :
    (replaceToken l c v).filter (fun t => t ≠ "co-requisite")
      = replaceToken (l.filter (fun t => t ≠ "co-requisite")) c v := by
  unfold replaceToken
  rw [List.filter_map]
  congr 1
  apply List.filter_congr
  intro t _
  by_cases htc : t = c
  · subst htc
    simp [hv, hc]
  · simp [htc]

theorem replaceToken_condFilter (b : Bool) (l : List String) (c v : String)
    (hc : c ≠ "co-requisite") (hv : v ≠ "co-requisite") :
    replaceToken (condFilterCoreq b l) c v = condFilterCoreq b (replaceToken l c v) := by
  cases b
  · rfl
  · show replaceToken (l.filter (fun t => t ≠ "co-requisite")) c v
      = (replaceToken l c v).filter (fun t => t ≠ "co-requisite")
    exact (filter_replaceToken_comm l c v hc hv).symm

theorem condFilter_filter (b : Bool) (l : List String) :
    (condFilterCoreq b l).filter (fun t => t ≠ "co-requisite") = condFilterCoreq true l := by
  cases b
  · rfl
  · show (l.filter (fun t => t ≠ "co-requisite")).filter (fun t => t ≠ "co-requisite")
      = l.filter (fun t => t ≠ "co-requisite")
    rw [List.filter_filter]
    apply List.filter_congr
    intro t _
    simp


theorem ne_c_of_mem_replaceToken {l : List String} {c v : String} (hv : v ≠ c) :
    ∀ t ∈ replaceToken l c v, t ≠ c := by
  intro t ht
  simp only [replaceToken, List.mem_map] at ht
  obtain ⟨a, _, rfl⟩ := ht
  by_cases hac : a = c
  · rw [if_pos hac]; exact hv
  · rw [if_neg hac]; exact hac

theorem substTok_replace_eq (ts p q seen : List String) (c t : String)
    (hc : isModuleCode c = true) :
    (if substTok ts p q seen t = c then codeValue ts p q c else substTok ts p q seen t)
      = substTok ts p q (seen ++ [c]) t := by
  by_cases htc : t = c
  · subst htc
    by_cases hseen : t ∈ seen
    · have h1 : substTok ts p q seen t = codeValue ts p q t := by
        simp [substTok, hc, hseen]
      have h2 : substTok ts p q (seen ++ [t]) t = codeValue ts p q t := by
        simp [substTok, hc]
      rw [h1, h2, if_neg (codeValue_ne_of_code t hc)]
    · have h1 : substTok ts p q seen t = t := by
        simp [substTok, hseen]
      have h2 : substTok ts p q (seen ++ [t]) t = codeValue ts p q t := by
        simp [substTok, hc]
      rw [h1, h2, if_pos rfl]
  · have hmem : (t ∈ seen ++ [c]) ↔ t ∈ seen := by simp [htc]
    have h2 : substTok ts p q (seen ++ [c]) t = substTok ts p q seen t := by
      simp only [substTok, hmem]
    rw [h2]
    by_cases hcase : isModuleCode t = true ∧ t ∈ seen
    · have h1 : substTok ts p q seen t = codeValue ts p q t := by
        simp [substTok, hcase.1, hcase.2]
      rw [h1, if_neg (codeValue_ne_of_code t hc)]
    · have h1 : substTok ts p q seen t = t := by
        simp only [substTok, if_neg hcase]
      rw [h1, if_neg htc]

theorem replaceToken_map_substTok (ts p q seen : List String) (c : String)
    (hc : isModuleCode c = true) :
    replaceToken (ts.map (substTok ts p q seen)) c (codeValue ts p q c)
      = ts.map (substTok ts p q (seen ++ [c])) := by
  unfold replaceToken
  rw [List.map_map]
  apply List.map_congr_left
  intro t _
  exact substTok_replace_eq ts p q seen c t hc

theorem ne_c_of_mem_map_substTok {ts p q seen : List String} {c : String}
    (hc : isModuleCode c = true) (hseen : c ∈ seen) :
    ∀ t ∈ ts.map (substTok ts p q seen), t ≠ c := by
  intro t ht
  rw [List.mem_map] at ht
  obtain ⟨a, _, rfl⟩ := ht
  by_cases hcond : isModuleCode a = true ∧ a ∈ seen
  · have h1 : substTok ts p q seen a = codeValue ts p q a := by
      simp [substTok, hcond.1, hcond.2]
    rw [h1]
    exact codeValue_ne_of_code a hc
  · have h1 : substTok ts p q seen a = a := by
      simp only [substTok, if_neg hcond]
    rw [h1]
    intro he
    exact hcond (by rw [he]; exact ⟨hc, hseen⟩)

theorem mem_condFilter_subset {b : Bool} {l : List String} {t : String}
    (ht : t ∈ condFilterCoreq b l) : t ∈ l := by
  cases b
  · exact ht
  · exact List.mem_of_mem_filter ht

theorem replace_state_value (ts p q seen : List String) (c : String)
    (hc : isModuleCode c = true) :
    replaceToken (substitutionState ts p q seen) c (codeValue ts p q c)
      = condFilterCoreq (seen.any (fun c' => coreqQualifiedB ts c'))
          (ts.map (substTok ts p q (seen ++ [c]))) := by
  simp only [substitutionState]
  rw [replaceToken_condFilter _ _ _ _ (code_ne_coreq hc) (codeValue_ne_coreq ts p q c),
    replaceToken_map_substTok ts p q seen c hc]

theorem substitute_one_code_state (ts p q seen : List String) (c : String)
    (hc : isModuleCode c = true) (hmem : c ∈ ts) :
    substitute_one_code ts p q (substitutionState ts p q seen) c
      = substitutionState ts p q (seen ++ [c]) := by
  have hTne : ("True" : String) ≠ c := fun h => absurd (h ▸ hc) (by decide)
  have hFne : ("False" : String) ≠ c := fun h => absurd (h ▸ hc) (by decide)
  simp only [substitute_one_code]
  rw [if_pos hmem]
  by_cases hpos : 0 < ts.findIdx (fun t => t == c)
  · by_cases hco : ts[ts.findIdx (fun t => t == c) - 1]? = some "co-requisite"
    · rw [if_pos hpos, if_pos hco]
      have hqB : coreqQualifiedB ts c = true := by
        simp [coreqQualifiedB, hpos, hco]
      have hany : ((seen ++ [c]).any (fun c' => coreqQualifiedB ts c')) = true := by
        rw [List.any_append]
        simp [hqB]
      by_cases hpq : c ∈ p ∨ c ∈ q
      · rw [if_pos hpq]
        have hvt : ("True" : String) = codeValue ts p q c := by
          simp only [codeValue]
          rw [if_pos hqB, if_pos hpq]
        rw [hvt, replace_state_value ts p q seen c hc, condFilter_filter]
        have hnoC : ∀ t ∈ condFilterCoreq true (ts.map (substTok ts p q (seen ++ [c]))), t ≠ c := by
          intro t ht
          exact ne_c_of_mem_map_substTok hc (by simp) t (mem_condFilter_subset ht)
        simp only [substitutionState]
        rw [hany]
        split_ifs <;> exact replaceToken_eq_self hnoC _
      · rw [if_neg hpq]
        have hvt : ("False" : String) = codeValue ts p q c := by
          simp only [codeValue]
          rw [if_pos hqB, if_neg hpq]
        rw [hvt, replace_state_value ts p q seen c hc, condFilter_filter]
        have hnoC : ∀ t ∈ condFilterCoreq true (ts.map (substTok ts p q (seen ++ [c]))), t ≠ c := by
          intro t ht
          exact ne_c_of_mem_map_substTok hc (by simp) t (mem_condFilter_subset ht)
        simp only [substitutionState]
        rw [hany]
        split_ifs <;> exact replaceToken_eq_self hnoC _
    · rw [if_pos hpos, if_neg hco]
      have hqB : coreqQualifiedB ts c = false := by
        simp [coreqQualifiedB, hco]
      have hany : ((seen ++ [c]).any (fun c' => coreqQualifiedB ts c'))
          = (seen.any (fun c' => coreqQualifiedB ts c')) := by
        rw [List.any_append]
        simp [hqB]
      by_cases hp : c ∈ p
      · rw [if_pos hp, if_pos hp,
          replaceToken_eq_self (ne_c_of_mem_replaceToken hTne) "True"]
        have hvt : ("True" : String) = codeValue ts p q c := by
          simp only [codeValue]
          rw [if_neg (by simp [hqB]), if_pos hp]
        rw [hvt, replace_state_value ts p q seen c hc]
        simp only [substitutionState]
        rw [hany]
      · rw [if_neg hp, if_neg hp,
          replaceToken_eq_self (ne_c_of_mem_replaceToken hFne) "False"]
        have hvt : ("False" : String) = codeValue ts p q c := by
          simp only [codeValue]
          rw [if_neg (by simp [hqB]), if_neg hp]
        rw [hvt, replace_state_value ts p q seen c hc]
        simp only [substitutionState]
        rw [hany]
  · rw [if_neg hpos]
    have hqB : coreqQualifiedB ts c = false := by
      simp [coreqQualifiedB, hpos]
    have hany : ((seen ++ [c]).any (fun c' => coreqQualifiedB ts c'))
        = (seen.any (fun c' => coreqQualifiedB ts c')) := by
      rw [List.any_append]
      simp [hqB]
    by_cases hp : c ∈ p
    · rw [if_pos hp]
      have hvt : ("True" : String) = codeValue ts p q c := by
        simp only [codeValue]
        rw [if_neg (by simp [hqB]), if_pos hp]
      rw [hvt, replace_state_value ts p q seen c hc]
      simp only [substitutionState]
      rw [hany]
    · rw [if_neg hp]
      have hvt : ("False" : String) = codeValue ts p q c := by
        simp only [codeValue]
        rw [if_neg (by simp [hqB]), if_neg hp]
      rw [hvt, replace_state_value ts p q seen c hc]
      simp only [substitutionState]
      rw [hany]


theorem substitutionState_nil (ts p q : List String) : substitutionState ts p q [] = ts := by
  simp only [substitutionState, List.any_nil, condFilterCoreq, if_neg]
  have h : (substTok ts p q []) = id := funext fun t => by simp [substTok]
  rw [h, List.map_id]
  simp

theorem findCodesCL_of_code {c : String} (hc : isModuleCode c = true) :
    findCodesCL c.data = [c] := by
  obtain ⟨l⟩ := c
  have hc' : codeShape l = true := hc
  unfold codeShape at hc'
  split at hc'
  · rename_i c1 c2 c3 c4 c5 c6
    show findCodesCL [c1, c2, c3, c4, c5, c6] = [⟨[c1, c2, c3, c4, c5, c6]⟩]
    simp [findCodesCL, findCodesAux, hc']
  · exact absurd hc' (by simp)

theorem isCode_of_mem_findCodesAux :
    ∀ (n : Nat) (l : List Char), ∀ x ∈ findCodesAux n l, isModuleCode x = true := by
  intro n
  induction n with
  | zero => intro l x hx; simp [findCodesAux] at hx
  | succ n ih =>
    intro l x hx
    rcases l with _ | ⟨c1, rest⟩
    · simp [findCodesAux] at hx
    · rcases rest with _ | ⟨c2, rest⟩
      · simp [findCodesAux] at hx
      · rcases rest with _ | ⟨c3, rest⟩
        · simp [findCodesAux] at hx
        · rcases rest with _ | ⟨c4, rest⟩
          · simp [findCodesAux] at hx
          · rcases rest with _ | ⟨c5, rest⟩
            · simp [findCodesAux] at hx
            · rcases rest with _ | ⟨c6, rest'⟩
              · simp [findCodesAux] at hx
              · simp only [findCodesAux] at hx
                by_cases hflags : (c1.isUpper && c2.isUpper && c3.isDigit && c4.isDigit &&
                    c5.isDigit && c6.isDigit) = true
                · rw [if_pos hflags] at hx
                  rcases List.mem_cons.mp hx with rfl | hx
                  · show codeShape [c1, c2, c3, c4, c5, c6] = true
                    unfold codeShape
                    exact hflags
                  · exact ih rest' x hx
                · rw [if_neg hflags] at hx
                  exact ih (c2 :: c3 :: c4 :: c5 :: c6 :: rest') x hx

theorem isCode_of_mem_findCodesCL (l : List Char) : ∀ x ∈ findCodesCL l, isModuleCode x = true :=
  isCode_of_mem_findCodesAux l.length l


/-- Claim C2 counterexample: on the input `[""]` (not empty, not all-`'None'`)
the claim predicts the joined non-`'None'` entries, i.e. the empty string, but
`merge_list_to_long_string` returns `'None'`. -/
theorem c2_counterexample :
    merge_list_to_long_string [""] = "None" ∧
    merge_list_to_long_string [""] ≠ joinSep ", " (nonNoneEntries [""]) := by
  constructor <;> decide

/-- Claim C2 (amended): `merge_list_to_long_string` returns the non-`'None'`
entries joined by `', '` in order, except that whenever that joined string is
empty (the list is empty, every entry is `'None'`, or the only non-`'None'`
entry is a single empty string) it returns `'None'` instead. -/
theorem c2_merge_characterisation (l : List String) :
    merge_list_to_long_string l =
      (if joinSep ", " (nonNoneEntries l) = "" then "None" else joinSep ", " (nonNoneEntries l)) := by
  unfold merge_list_to_long_string
  rw [merge_aux_start l]

/-- Claim C7: the credit-load rule emits `'Not collecting 120 credits in
<year>'` for an honours year occurring in the plan if and only if the number
of planned entries for that year differs from the required count (8 for
Year 1 and Year 2, 7 for Year 3); the mismatch is recorded among the missed
requirements, never among the advisories. -/
theorem c7_credit_load_rule (st : Student) (y : String)
    (hy : y ∈ st.honours_module_choices.map (fun (r : ChoiceRow) => r.honoursYear))
    (hyr : y = "Year 1" ∨ y = "Year 2" ∨ y = "Year 3") :
    (("Not collecting 120 credits in " ++ y) ∈ (check_for_120_credits_lists st).1 ↔
      (st.honours_module_choices.filter (fun (r : ChoiceRow) => r.honoursYear = y)).length
        ≠ (if y = "Year 3" then 7 else 8)) ∧
    ("Not collecting 120 credits in " ++ y) ∉ (check_for_120_credits_lists st).2 := by
  constructor
  · simp only [check_for_120_credits_lists, credit_count_findings]
    constructor
    · intro hmem
      rw [List.mem_flatMap] at hmem
      obtain ⟨hy', hy'mem, hin⟩ := hmem
      rcases List.mem_append.mp hin with h | h
      · by_cases hc : (hy' = "Year 1" ∨ hy' = "Year 2") ∧
            (st.honours_module_choices.filter (fun (r : ChoiceRow) => r.honoursYear = hy')).length ≠ 8
        · rw [if_pos hc] at h
          have hyy : y = hy' := credit_message_inj (List.mem_singleton.mp h)
          subst hyy
          rw [if_neg (by rcases hc.1 with h1 | h1 <;> rw [h1] <;> decide)]
          exact hc.2
        · rw [if_neg hc] at h
          exact absurd h (List.not_mem_nil _)
      · by_cases hc : hy' = "Year 3" ∧
            (st.honours_module_choices.filter (fun (r : ChoiceRow) => r.honoursYear = hy')).length ≠ 7
        · rw [if_pos hc] at h
          have hyy : y = hy' := credit_message_inj (List.mem_singleton.mp h)
          subst hyy
          rw [if_pos hc.1]
          exact hc.2
        · rw [if_neg hc] at h
          exact absurd h (List.not_mem_nil _)
    · intro hne
      rw [List.mem_flatMap]
      refine ⟨y, (mem_dedupFirst y _).mpr hy, ?_⟩
      rcases hyr with rfl | rfl | rfl
      · rw [if_neg (by decide)] at hne
        exact List.mem_append.mpr (Or.inl (by rw [if_pos ⟨Or.inl rfl, hne⟩]; exact List.mem_singleton.mpr rfl))
      · rw [if_neg (by decide)] at hne
        exact List.mem_append.mpr (Or.inl (by rw [if_pos ⟨Or.inr rfl, hne⟩]; exact List.mem_singleton.mpr rfl))
      · rw [if_pos rfl] at hne
        exact List.mem_append.mpr (Or.inr (by rw [if_pos ⟨rfl, hne⟩]; exact List.mem_singleton.mpr rfl))
  · intro hmem
    simp only [check_for_120_credits_lists, credit_split_advisories] at hmem
    rw [List.mem_flatMap] at hmem
    obtain ⟨hy', hy'mem, hin⟩ := hmem
    split_ifs at hin <;>
      first
        | exact absurd hin (List.not_mem_nil _)
        | exact credit_message_ne_high y (List.mem_singleton.mp hin)
        | exact credit_message_ne_uneven y (List.mem_singleton.mp hin)
        | (rw [List.mem_flatMap] at hin
           obtain ⟨sem, semmem, hin2⟩ := hin
           split_ifs at hin2 <;>
             first
               | exact credit_message_ne_split y hy' (List.mem_singleton.mp hin2)
               | exact absurd hin2 (List.not_mem_nil _))

/-- Claim C7 witness: a Year 1 plan of length 7 makes the rule applicable and
the finding appears (7 ≠ 8). -/
theorem c7_credit_load_rule_witness :
    (("Not collecting 120 credits in Year 1" ∈ (check_for_120_credits_lists c7_student).1) ↔ (7 ≠ 8)) ∧
    "Not collecting 120 credits in Year 1" ∉ (check_for_120_credits_lists c7_student).2 :=
  c7_credit_load_rule c7_student "Year 1" (by decide) (Or.inl rfl)

/-- Claim C8: for a two-honours-year student whose module split matches the
spec's expected shape exactly (Year 1: 4+4; final year: 4+3 after excluding
MT4599) the code still emits the high-course-load advisory for the final
honours year, because lines 714-716 compute `semester_2_modules` from the
`'S1'` filter: the `4 and 3` test can never succeed.  The claim's "no
advisory when the shape matches" is violated. -/
theorem c8_final_year_split_bug :
    ((c8_choices.filter (fun (r : ChoiceRow) => r.honoursYear = "Year 1" ∧ r.semester = "S1")).length = 4) ∧
    ((c8_choices.filter (fun (r : ChoiceRow) => r.honoursYear = "Year 1" ∧ r.semester = "S2")).length = 4) ∧
    ((c8_choices.filter (fun (r : ChoiceRow) =>
        r.honoursYear = "Year 2" ∧ r.moduleCode ≠ "MT4599" ∧ r.semester = "S1")).length = 4) ∧
    ((c8_choices.filter (fun (r : ChoiceRow) =>
        r.honoursYear = "Year 2" ∧ r.moduleCode ≠ "MT4599" ∧ r.semester = "S2")).length = 3) ∧
    (check_for_120_credits_lists c8_student).1 = [] ∧
    (check_for_120_credits_lists c8_student).2
      = ["Student is taking a high course load in second semester of final honours year"] := by
  decide

theorem foldl_substitute_state (ts p q : List String) :
    ∀ (cs seen : List String), (∀ c ∈ cs, isModuleCode c = true ∧ c ∈ ts) →
      cs.foldl (substitute_one_code ts p q) (substitutionState ts p q seen)
        = substitutionState ts p q (seen ++ cs) := by
  intro cs
  induction cs with
  | nil => intro seen _; simp
  | cons c cs' ih =>
    intro seen h
    rw [List.foldl_cons,
      substitute_one_code_state ts p q seen c (h c (List.mem_cons_self _ _)).1
        (h c (List.mem_cons_self _ _)).2,
      ih (seen ++ [c]) (fun x hx => h x (List.mem_cons_of_mem _ hx))]
    have heq : seen ++ [c] ++ cs' = seen ++ c :: cs' := by simp
    rw [heq]

theorem findall_eq_filter (ts : List String)
    (h : ∀ t ∈ ts, isModuleCode t = true ∨ findCodesCL t.data = []) :
    findall_module_codes ts = ts.filter (fun t => isModuleCode t) := by
  induction ts with
  | nil => rfl
  | cons a as ih =>
    simp only [findall_module_codes, List.flatMap_cons, List.filter_cons] at *
    rcases h a (List.mem_cons_self _ _) with ha | ha
    · rw [findCodesCL_of_code ha, ha, if_pos rfl, List.singleton_append]
      rw [ih (fun t ht => h t (List.mem_cons_of_mem _ ht))]
    · have hcode : isModuleCode a = false := by
        cases hax : isModuleCode a
        · rfl
        · rw [findCodesCL_of_code hax] at ha
          exact absurd ha (by simp)
      rw [ha, hcode, List.nil_append]
      rw [ih (fun t ht => h t (List.mem_cons_of_mem _ ht))]
      simp

/-- Claim C4 (amended): on a whitespace-tokenised prerequisite expression
whose tokens are either bare module codes or code-free, substitution is
per distinct module code, not per occurrence: every occurrence of a code
receives one value, determined by the code's first token occurrence — the
co-requisite rule (previously ∪ simultaneously) applies exactly when that
first occurrence is immediately preceded by the token `co-requisite`, and
otherwise membership in previously-taken alone decides — and all
`co-requisite` tokens are stripped as soon as some code is
co-requisite-qualified (`substitutionState` states exactly this mapping). -/
theorem c4_substitution_by_first_occurrence
    (prerequisite_list previously simultaneously : List String)
    (h : ∀ t ∈ prerequisite_list, isModuleCode t = true ∨ findCodesCL t.data = []) :
    substitute_module_codes prerequisite_list previously simultaneously
      = substitutionState prerequisite_list previously simultaneously
          (prerequisite_list.filter (fun t => isModuleCode t)) := by
  unfold substitute_module_codes
  rw [findall_eq_filter _ h]
  calc (prerequisite_list.filter (fun t => isModuleCode t)).foldl
        (substitute_one_code prerequisite_list previously simultaneously) prerequisite_list
      = (prerequisite_list.filter (fun t => isModuleCode t)).foldl
        (substitute_one_code prerequisite_list previously simultaneously)
        (substitutionState prerequisite_list previously simultaneously []) := by
        rw [substitutionState_nil]
    _ = substitutionState prerequisite_list previously simultaneously
        ([] ++ prerequisite_list.filter (fun t => isModuleCode t)) := by
        apply foldl_substitute_state
        intro c hc
        exact ⟨List.of_mem_filter hc, List.mem_of_mem_filter hc⟩
    _ = substitutionState prerequisite_list previously simultaneously
        (prerequisite_list.filter (fun t => isModuleCode t)) := by
        rw [List.nil_append]

/-- Claim C4 witness: the amended description applies to the concrete
expression `co-requisite MT2501 and MT2502`. -/
theorem c4_substitution_by_first_occurrence_witness :
    substitute_module_codes ["co-requisite", "MT2501", "and", "MT2502"] ["MT2502"] ["MT2501"]
      = substitutionState ["co-requisite", "MT2501", "and", "MT2502"] ["MT2502"] ["MT2501"]
          (["co-requisite", "MT2501", "and", "MT2502"].filter (fun t => isModuleCode t)) :=
  c4_substitution_by_first_occurrence _ _ _ (by decide)

/-- Claim C4 counterexample: in `MT1001 or co-requisite MT1001` with MT1001
simultaneously taken but not previously taken, the co-requisite-qualified
second occurrence is substituted `False` although the code is a member of
previously ∪ simultaneously (the claim demands `True` there): `.index` finds
only the first, unqualified occurrence and `.replace` rewrites every
occurrence, so the qualified occurrence is decided by previously-taken
membership alone (and the `co-requisite ` text is never stripped). -/
theorem c4_coreq_occurrence_counterexample :
    substitute_module_codes ["MT1001", "or", "co-requisite", "MT1001"] [] ["MT1001"]
      = ["False", "or", "co-requisite", "False"] ∧
    ("MT1001" ∈ ([] : List String) ∨ "MT1001" ∈ (["MT1001"] : List String)) :=
  ⟨by decide, by decide⟩

/-- Claim C3 at a failing input: for a module with prerequisite field
`MT1001 and MT1002` and a student who has taken neither code, the evaluator
emits no missing-prerequisite finding at all — the three-token
`len(prerequisite_list) == 3` branch (meant for `Letter of agreement`)
swallows every three-token boolean expression before the general evaluator
runs — although the claim (and spec §4.1) require a finding naming the
expression whenever not both codes are in previously-taken. -/
theorem c3_compound_prerequisite_skipped :
    ("MT1001" ∉ c3_student.passed_modules ∧ "MT1002" ∉ c3_student.passed_modules) ∧
    get_missing_prerequisites_for_module c3_catalogue "MT2001" c3_student = ("None", "None") :=
  ⟨by decide, by decide⟩


theorem filter_eq_singleton_of_nodup {l : List String} {x : String} {p : String → Bool}
    (hnd : l.Nodup) (hx : x ∈ l) (h : ∀ t ∈ l, p t = true ↔ t = x) :
    l.filter p = [x] := by
  induction l with
  | nil => cases hx
  | cons a as ih =>
    rw [List.filter_cons]
    have hnd' := List.nodup_cons.mp hnd
    rcases List.mem_cons.mp hx with heq | hx'
    · subst heq
      rw [if_pos ((h x (List.mem_cons_self _ _)).mpr rfl)]
      have hnil : as.filter p = [] := by
        rw [List.filter_eq_nil_iff]
        intro t ht hpt
        have hta := (h t (List.mem_cons_of_mem _ ht)).mp hpt
        exact hnd'.1 (hta ▸ ht)
      rw [hnil]
    · have hax : ¬ (p a = true) := by
        intro hpa
        have haa := (h a (List.mem_cons_self _ _)).mp hpa
        exact hnd'.1 (haa ▸ hx')
      rw [if_neg hax]
      exact ih hnd'.2 hx' (fun t ht => h t (List.mem_cons_of_mem _ ht))

theorem find_clashing_pair (y s a b c : String) (slA slB slC : List String)
    (hab : strLe a b = true) (hne : a ≠ b)
    (hA : "10am Mon" ∈ slA) (hB : "10am Mon" ∈ slB) (hC : "10am Mon" ∉ slC)
    (hAB : ∀ t, t ∈ slA → t ∈ slB → t = "10am Mon")
    (hAC : ∀ t, t ∈ slA → t ∈ slC → False)
    (hBC : ∀ t, t ∈ slB → t ∈ slC → False)
    (hnA : slA.Nodup) (hnB : slB.Nodup) (hnC : slC.Nodup) :
    find_clashing_timeslots_and_modules [(a, slA), (b, slB), (c, slC)] y s
      = ["Clash for " ++ y ++ " " ++ s ++ " between modules " ++ a ++ " and " ++ b
          ++ " at 10am Mon"] := by
  have hall : ([(a, slA), (b, slB), (c, slC)].flatMap (fun r => r.2)) = slA ++ (slB ++ slC) := by
    simp
  have hcount : ∀ t ∈ slA ++ (slB ++ slC),
      (1 < (slA ++ (slB ++ slC)).count t) ↔ t = "10am Mon" := by
    intro t ht
    constructor
    · intro hgt
      by_contra hne10
      rcases List.mem_append.mp ht with htA | h2
      · have hB0 : slB.count t = 0 :=
          List.count_eq_zero_of_not_mem (fun hmem => hne10 (hAB t htA hmem))
        have hC0 : slC.count t = 0 :=
          List.count_eq_zero_of_not_mem (fun hmem => hAC t htA hmem)
        have hA1 : slA.count t ≤ 1 := List.nodup_iff_count_le_one.mp hnA t
        rw [List.count_append, List.count_append, hB0, hC0] at hgt
        omega
      · rcases List.mem_append.mp h2 with htB | htC
        · have hA0 : slA.count t = 0 :=
            List.count_eq_zero_of_not_mem (fun hmem => hne10 (hAB t hmem htB))
          have hC0 : slC.count t = 0 :=
            List.count_eq_zero_of_not_mem (fun hmem => hBC t htB hmem)
          have hB1 : slB.count t ≤ 1 := List.nodup_iff_count_le_one.mp hnB t
          rw [List.count_append, List.count_append, hA0, hC0] at hgt
          omega
        · have hA0 : slA.count t = 0 :=
            List.count_eq_zero_of_not_mem (fun hmem => hAC t hmem htC)
          have hB0 : slB.count t = 0 :=
            List.count_eq_zero_of_not_mem (fun hmem => hBC t hmem htC)
          have hC1 : slC.count t ≤ 1 := List.nodup_iff_count_le_one.mp hnC t
          rw [List.count_append, List.count_append, hA0, hB0] at hgt
          omega
    · rintro rfl
      have h1 : 0 < slA.count "10am Mon" := List.count_pos_iff.mpr hA
      have h2 : 0 < slB.count "10am Mon" := List.count_pos_iff.mpr hB
      rw [List.count_append, List.count_append]
      omega
  have hdup : (dedupFirst (slA ++ (slB ++ slC))).filter
      (fun t => 1 < (slA ++ (slB ++ slC)).count t) = ["10am Mon"] := by
    apply filter_eq_singleton_of_nodup (nodup_dedupFirst _)
      ((mem_dedupFirst _ _).mpr (List.mem_append.mpr (Or.inl hA)))
    intro t ht
    rw [decide_eq_true_eq]
    exact hcount t ((mem_dedupFirst _ _).mp ht)
  have hfilter : [(a, slA), (b, slB), (c, slC)].filter (fun r => "10am Mon" ∈ r.2)
      = [(a, slA), (b, slB)] := by
    simp [List.filter_cons, hA, hB, hC]
  have hsort : insertionSort [a, b] = [a, b] := by
    simp [insertionSort, insertStr, hab]
  have hdd : dedupFirst [a, b] = [a, b] := by
    simp [dedupFirst, dedupFirstAux, Ne.symm hne]
  have hla : lookupSlots [(a, slA), (b, slB), (c, slC)] a = slA := by
    simp [lookupSlots, List.find?]
  have hlb : lookupSlots [(a, slA), (b, slB), (c, slC)] b = slB := by
    have : (a == b) = false := by
      simp [hne]
    simp [lookupSlots, List.find?, this]
  have haffected : (dedupFirst slA).filter (fun x => x ∈ dedupFirst slB) = ["10am Mon"] := by
    apply filter_eq_singleton_of_nodup (nodup_dedupFirst _)
      ((mem_dedupFirst _ _).mpr hA)
    intro t ht
    rw [decide_eq_true_eq, mem_dedupFirst]
    constructor
    · intro htB
      exact hAB t ((mem_dedupFirst _ _).mp ht) htB
    · rintro rfl
      exact hB
  have hmc : insertionSort (([(a, slA), (b, slB), (c, slC)].filter
      (fun r => "10am Mon" ∈ r.2)).map (fun r => r.1)) = [a, b] := by
    rw [hfilter]
    simp only [List.map_cons, List.map_nil]
    exact hsort
  have hdd2 : dedupFirst [[a, b]] = [[a, b]] := by
    simp [dedupFirst, dedupFirstAux]
  simp only [find_clashing_timeslots_and_modules, hall]
  rw [hdup]
  simp only [List.map_cons, List.map_nil]
  rw [hmc, hdd, hdd2]
  simp only [List.map_cons, List.map_nil, hla, hlb]
  simp only [intersectAll, List.foldl_cons, List.foldl_nil]
  rw [haffected]
  simp only [joinSep]
  simp only [String.append_assoc]
  rfl

theorem dedupFirstAux_eq_nil_of_subset {α : Type} [DecidableEq α] :
    ∀ {l seen : List α}, (∀ x ∈ l, x ∈ seen) → dedupFirstAux seen l = [] := by
  intro l
  induction l with
  | nil => intro seen _; rfl
  | cons a as ih =>
    intro seen h
    rw [dedupFirstAux, if_pos (h a (List.mem_cons_self _ _))]
    exact ih (fun x hx => h x (List.mem_cons_of_mem _ hx))

theorem dedupFirstAux_append_of_subset {α : Type} [DecidableEq α] :
    ∀ (l₁ : List α) {l₂ : List α} (seen : List α), (∀ x ∈ l₂, x ∈ l₁ ∨ x ∈ seen) →
      dedupFirstAux seen (l₁ ++ l₂) = dedupFirstAux seen l₁ := by
  intro l₁
  induction l₁ with
  | nil =>
    intro l₂ seen h
    rw [List.nil_append]
    exact dedupFirstAux_eq_nil_of_subset (fun x hx => ((h x hx).elim (fun hc => absurd hc (List.not_mem_nil x)) id))
  | cons a as ih =>
    intro l₂ seen h
    rw [List.cons_append, dedupFirstAux, dedupFirstAux]
    by_cases ha : a ∈ seen
    · rw [if_pos ha, if_pos ha]
      apply ih
      intro x hx
      rcases h x hx with hx1 | hx1
      · rcases List.mem_cons.mp hx1 with rfl | hx2
        · exact Or.inr ha
        · exact Or.inl hx2
      · exact Or.inr hx1
    · rw [if_neg ha, if_neg ha]
      congr 1
      apply ih
      intro x hx
      rcases h x hx with hx1 | hx1
      · rcases List.mem_cons.mp hx1 with rfl | hx2
        · exact Or.inr (List.mem_cons_self _ _)
        · exact Or.inl hx2
      · exact Or.inr (List.mem_cons_of_mem _ hx1)

theorem dedupFirst_append_subset {α : Type} [DecidableEq α] (l₁ l₂ : List α)
    (h : ∀ x ∈ l₂, x ∈ l₁) : dedupFirst (l₁ ++ l₂) = dedupFirst l₁ :=
  dedupFirstAux_append_of_subset l₁ [] (fun x hx => Or.inl (h x hx))

theorem dedupFirst_three_passes (l : List String) :
    dedupFirst (l ++ l ++ l) = dedupFirst l := by
  rw [dedupFirst_append_subset (l ++ l) l (fun x hx => List.mem_append.mpr (Or.inl hx)),
    dedupFirst_append_subset l l (fun x hx => hx)]

/-- Claim C5: when two modules in a (honours year, semester) group share
exactly the timeslot `10am Mon` and a third module shares no slot with
either, the detector (all three passes, deduplicated as on source lines
148-162) returns exactly one clash message, naming both modules (in sorted
order) and the shared timeslot. -/
theorem c5_shared_timeslot_clash (y s a b c : String) (slA slB slC : List String)
    (hab : strLe a b = true) (hne : a ≠ b)
    (hA : "10am Mon" ∈ slA) (hB : "10am Mon" ∈ slB) (hC : "10am Mon" ∉ slC)
    (hAB : ∀ t, t ∈ slA → t ∈ slB → t = "10am Mon")
    (hAC : ∀ t, t ∈ slA → t ∈ slC → False)
    (hBC : ∀ t, t ∈ slB → t ∈ slC → False)
    (hnA : slA.Nodup) (hnB : slB.Nodup) (hnC : slC.Nodup) :
    dedupFirst (clash_detection_passes [(a, slA), (b, slB), (c, slC)] y s)
      = ["Clash for " ++ y ++ " " ++ s ++ " between modules " ++ a ++ " and " ++ b
          ++ " at 10am Mon"] := by
  rw [clash_detection_passes, dedupFirst_three_passes,
    find_clashing_pair y s a b c slA slB slC hab hne hA hB hC hAB hAC hBC hnA hnB hnC]
  simp [dedupFirst, dedupFirstAux]

/-- Claim C5 witness: the concrete three-module group from the spec's
scenario. -/
theorem c5_shared_timeslot_clash_witness :
    dedupFirst (clash_detection_passes
        [("MT3501", ["10am Mon", "11am Tue"]), ("MT3502", ["10am Mon", "2pm Wed"]),
         ("MT3503", ["9am Thu"])] "Year 1" "S1")
      = ["Clash for Year 1 S1 between modules MT3501 and MT3502 at 10am Mon"] :=
  c5_shared_timeslot_clash "Year 1" "S1" "MT3501" "MT3502" "MT3503" ["10am Mon", "11am Tue"]
    ["10am Mon", "2pm Wed"] ["9am Thu"] (by decide) (by decide) (by decide) (by decide)
    (by decide) (by decide) (by decide) (by decide) (by decide) (by decide) (by decide)

/-- Claim C6 counterexample: two modules occupying `10am Mon` where one is
odd-weeks-only and the other even-weeks-only are NOT reported as a timetable
clash — the claim asserts they still are.  The two timeslot strings differ,
so the occurrence counter never sees a duplicate, and the qualifier-stripping
passes have no effect. -/
theorem c6_odd_even_counterexample :
    merge_list_to_long_string (dedupFirst (clash_detection_passes
      [("MT0001", ["10am Mon (odd weeks)"]), ("MT0002", ["10am Mon (even weeks)"])]
      "Year 1" "S1")) = "None" := by
  decide

/-- Claim C6 (amended): the qualifier-stripping code path discards its
result, so the three detection passes are identical — the deduplicated
warning list always equals that of a single pass — and two modules occupying
the same day+time with differing odd/even qualifiers produce NO clash
report (their timeslot strings compare unequal). -/
theorem c6_odd_even_not_reported :
    (∀ (d : List (String × List String)) (y s : String),
      dedupFirst (clash_detection_passes d y s)
        = dedupFirst (find_clashing_timeslots_and_modules d y s)) ∧
    find_clashing_timeslots_and_modules
      [("MT0001", ["10am Mon (odd weeks)"]), ("MT0002", ["10am Mon (even weeks)"])]
      "Year 1" "S1" = [] := by
  constructor
  · intro d y s
    rw [clash_detection_passes, dedupFirst_three_passes]
  · decide

/-- Claim C1 at a failing input: a student whose module selection satisfies
every programme rule (credit loads and splits, breadth, computing, project,
forbidden modules, dip-down, senior credits), meets every prerequisite,
selects only running modules and has no timetable clash still does not get
five `'None'` columns: the adviser-recommendations column carries the
always-on high-course-load advisory produced by the `'S1'`/`'S1'` slip in
`check_for_120_credits_each_year` (lines 713-717). -/
theorem c1_fully_valid_student_yields_advisory :
    process_student c1_catalogue c1_student
      = some ("None", "None", "None", "None",
          "Student is taking a high course load in second semester of final honours year") := by
  decide

/-- Claim C9: every unrecoverable-per-record parse outcome (missing/invalid
student ID, ID not in any historical table, unrecognised programme) yields a
complete sentinel summary row — ID 0, `'Unknown'` name and programme, and
the descriptive message in the programme-findings slot — without raising. -/
theorem c9_sentinel_record (filename : String) (w : ParseWarning) :
    process_form_file_warning filename w
      = ⟨0, "Unknown", "Unknown", 0, expected_warning_message filename w, " ", " ", " ", " "⟩ := by
  cases w with
  | noStudentID => rfl
  | invalidStudentID id =>
    have hne1 : ¬ (("contains invalid student ID " ++ toString id) = "No student ID") := by
      intro h
      have hlen := congrArg String.length h
      rw [String.length_append] at hlen
      rw [show ("contains invalid student ID " : String).length = 28 from by decide,
        show ("No student ID" : String).length = 13 from by decide] at hlen
      omega
    have hsw : strStartsWith ("contains invalid student ID " ++ toString id)
        "contains invalid student ID" = true := rfl
    simp only [process_form_file_warning, warning_string, expected_warning_message]
    rw [if_neg hne1, if_pos hsw]
    refine congrArg (fun m => SummaryRow.mk 0 "Unknown" "Unknown" 0 m " " " " " " " ") ?_
    simp only [String.append_assoc]
    rw [← String.append_assoc ". The file " "contains invalid student ID " (toString id)]
    rfl
  | unrecognisedProgramme p =>
    have hne1 : ¬ (("Do not recognise student programme for parsing: " ++ p) = "No student ID") := by
      intro h
      have hlen := congrArg String.length h
      rw [String.length_append] at hlen
      rw [show ("Do not recognise student programme for parsing: " : String).length = 48 from by decide,
        show ("No student ID" : String).length = 13 from by decide] at hlen
      omega
    have hsw2 : strStartsWith ("Do not recognise student programme for parsing: " ++ p)
        "contains invalid student ID" = false := rfl
    have hsw3 : strStartsWith ("Do not recognise student programme for parsing: " ++ p)
        "Do not recognise student programme for parsing:" = true := rfl
    simp only [process_form_file_warning, warning_string, expected_warning_message]
    rw [if_neg hne1, if_neg (by rw [hsw2]; exact Bool.false_ne_true), if_pos hsw3]
    refine congrArg (fun m => SummaryRow.mk 0 "Unknown" "Unknown" 0 m " " " " " " " ") ?_
    simp only [String.append_assoc]
    rw [← String.append_assoc ". " "Do not recognise student programme for parsing: " p]
    rfl

/-- Claim C10: constructing a `Student` mutates the passed-honours list
object supplied to the constructor — `all_honours_modules` is bound to the
same object and the planned codes are appended in place, so after
construction the two attributes alias one list whose content is the original
passed-honours content followed by every planned module code. -/
theorem c10_passed_honours_aliased (h : PyHeap) (student_id : Nat)
    (full_name email programme_name : String)
    (year_of_study expected_honours_years current_honours_year : Nat)
    (passed_modules_ref passed_honours_modules_ref : Nat)
    (honours_module_choices : List ChoiceRow)
    (hvalid : passed_honours_modules_ref < h.next) :
    (Student_init h student_id full_name email programme_name year_of_study
        expected_honours_years current_honours_year passed_modules_ref
        passed_honours_modules_ref honours_module_choices).1.all_honours_modules_ref
      = (Student_init h student_id full_name email programme_name year_of_study
          expected_honours_years current_honours_year passed_modules_ref
          passed_honours_modules_ref honours_module_choices).1.passed_honours_modules_ref ∧
    (Student_init h student_id full_name email programme_name year_of_study
        expected_honours_years current_honours_year passed_modules_ref
        passed_honours_modules_ref honours_module_choices).2.store passed_honours_modules_ref
      = h.store passed_honours_modules_ref
          ++ honours_module_choices.map (fun (r : ChoiceRow) => r.moduleCode) := by
  constructor
  · rfl
  · have hne : passed_honours_modules_ref ≠ h.next := Nat.ne_of_lt hvalid
    simp only [Student_init, heapAlloc, heapExtend]
    simp [hne]

/-- Claim C10 witness: the aliasing and the in-place append on a concrete
one-object heap. -/
theorem c10_passed_honours_aliased_witness :
    (Student_init c10_heap 7 "Test Student" "ts@example.com"
        "Bachelor of Science (Honours) Mathematics" 3 2 1 0 0 c10_rows).1.all_honours_modules_ref
      = (Student_init c10_heap 7 "Test Student" "ts@example.com"
          "Bachelor of Science (Honours) Mathematics" 3 2 1 0 0 c10_rows).1.passed_honours_modules_ref ∧
    (Student_init c10_heap 7 "Test Student" "ts@example.com"
        "Bachelor of Science (Honours) Mathematics" 3 2 1 0 0 c10_rows).2.store 0
      = c10_heap.store 0 ++ c10_rows.map (fun (r : ChoiceRow) => r.moduleCode) :=
  c10_passed_honours_aliased c10_heap 7 "Test Student" "ts@example.com"
    "Bachelor of Science (Honours) Mathematics" 3 2 1 0 0 c10_rows (by decide)
